import Mathlib

/-!
Verification of the task-timer engine (`timer.py`) of the task-scheduler
repository.  The program is embedded shallowly as a pure event-trace
semantics: every observable notification operation (show / update / close on
the active countdown channel, timeline-slot shows, alarm notifications, the
audible alarm, the blocking acknowledgment read, the final notification) is
recorded as an `Event`, and each Python function is translated into a Lean
function returning the list of events it emits together with its result.

The skip signal (operator pressing Enter) is modelled by an oracle
`skip : Nat → Bool` telling, for each 1-second `select` call of the countdown
loop (numbered from 1), whether stdin is ready.  A process-level interrupt
(KeyboardInterrupt) raised mid-loop is modelled by a separate function that
truncates the loop at a given iteration and still emits the `finally`-block
close.
-/

namespace TaskTimer

/-- Notification urgency, mirroring `notify2.URGENCY_LOW / NORMAL / CRITICAL`. -/
inductive Urgency
  | low
  | normal
  | critical
  deriving DecidableEq, Repr

/-- Status a timeline slot is rendered with (`queue_timeline_notifications`
and `update_timeline_notification` in timer.py). -/
inductive Status
  | completed
  | active
  | upcoming
  deriving DecidableEq, Repr

/-- One observable call of the program.  `timeout` is the notify2 timeout in
milliseconds (`0` = never auto-expire, as set by `set_timeout`). -/
inductive Event
  | activeShow (urgency : Urgency) (timeout : Int)
  | activeUpdate (mins secs : Nat)
  | activeClose
  | alarmShow (urgency : Urgency) (timeout : Int)
  | alarmClose
  | playAlarm
  | ackWait
  | timelineShow (slot : Nat) (status : Status) (urgency : Urgency) (timeout : Int)
  | finalShow (urgency : Urgency) (timeout : Int)
  deriving DecidableEq, Repr

/-- Per-task timer state (spec §3): the countdown ends in `Skipped` or
`Expired`. -/
inductive TimerState
  | Pending
  | Running (remaining : Nat)
  | Skipped
  | Expired
  deriving DecidableEq, Repr

/-- A task as loaded from the schedule JSON.  Fields are optional because the
Python code reads them with `task.get(key, default)`. -/
structure Task where
  task_name : Option String
  start_time : Option String
  duration_minutes : Option Int
  deriving DecidableEq, Repr

/-- `task.get("duration_minutes", 0)` in timer.py. -/
def Task.getDuration (t : Task) : Int :=
  t.duration_minutes.getD 0

/-- Result of the countdown `while remaining_seconds > 0` loop of
`run_task_timer` (timer.py lines 213–241). -/
structure LoopOut where
  events : List Event
  remaining : Nat
  skipped : Bool
  ticks : Nat
  deriving DecidableEq, Repr

/-- The countdown loop of `run_task_timer` (timer.py lines 213–241).
`iter` numbers the `select` calls from 1; `skip iter = true` means stdin was
ready during iteration `iter`.  On a pending skip the loop prints, consumes
the input, sets `task_skipped`, closes the notification and breaks without
decrementing; otherwise it decrements `remaining_seconds`, recomputes
`divmod(remaining_seconds, 60)` and updates + shows the active notification.
`ticks` counts loop iterations performed (including the one that observes the
skip). -/
def countdownLoop (skip : Nat → Bool) : Nat → Nat → LoopOut
  | _, 0 => ⟨[], 0, false, 0⟩
  | iter, r + 1 =>
    if skip iter then
      ⟨[Event.activeClose], r + 1, true, 1⟩
    else
      let rest := countdownLoop skip (iter + 1) r
      ⟨Event.activeUpdate (r / 60) (r % 60) :: Event.activeShow Urgency.critical 0 ::
        rest.events, rest.remaining, rest.skipped, rest.ticks + 1⟩

/-- Result of one `run_task_timer` invocation: its event trace, its Python
return value (`None` for an invalid duration, `notification_id + 1`
otherwise), the terminal timer state, the number of loop ticks, and the final
value of `remaining_seconds`. -/
structure RunResult where
  events : List Event
  retId : Option Nat
  state : TimerState
  ticks : Nat
  finalRemaining : Nat
  deriving DecidableEq, Repr

/-- `run_task_timer(task, next_task_info, notification_id)` (timer.py lines
157–286).  A task with `duration_minutes <= 0` is logged and the function
returns `None` immediately, with no notification call.  Otherwise
`remaining_seconds = duration_minutes * 60`; the active notification is
created critical/persistent and shown; the countdown loop runs; the
`finally` block closes the active notification unconditionally; only when
the task was not skipped does it show the 10-second alarm notification, play
the alarm, block on `input()` and close the alarm. -/
def run_task_timer (task : Task) (skip : Nat → Bool) (notification_id : Option Nat) :
    RunResult :=
  if task.getDuration ≤ 0 then
    ⟨[], none, TimerState.Skipped, 0, 0⟩
  else
    let nid := notification_id.getD 0
    let lp := countdownLoop skip 1 (task.getDuration.toNat * 60)
    let post : List Event :=
      if lp.skipped then []
      else [Event.alarmShow Urgency.critical 10000, Event.playAlarm,
            Event.ackWait, Event.alarmClose]
    ⟨Event.activeShow Urgency.critical 0 :: lp.events ++ [Event.activeClose] ++ post,
     some (nid + 1),
     if lp.skipped then TimerState.Skipped else TimerState.Expired,
     lp.ticks, lp.remaining⟩

/-- The countdown loop when a KeyboardInterrupt is raised during iteration
`j`'s `select` call (before that iteration has any observable effect), with
no skip signal pending: the loop body's events for iterations before `j`
are emitted and the exception aborts the loop there. -/
def countdownLoopIntr (j : Nat) : Nat → Nat → List Event
  | _, 0 => []
  | iter, r + 1 =>
    if iter = j then []
    else
      Event.activeUpdate (r / 60) (r % 60) :: Event.activeShow Urgency.critical 0 ::
        countdownLoopIntr j (iter + 1) r

/-- Events of a `run_task_timer` invocation interrupted by a process-level
cancellation (Ctrl+C) during loop iteration `j`: the `finally` block still
closes the active notification, and nothing after the `try` statement runs
because the exception propagates. -/
def run_task_timer_interrupted (task : Task) (j : Nat) : List Event :=
  if task.getDuration ≤ 0 then []
  else
    Event.activeShow Urgency.critical 0 ::
      countdownLoopIntr j 1 (task.getDuration.toNat * 60) ++ [Event.activeClose]

/-- Status and urgency given to timeline slot `i` by
`queue_timeline_notifications(tasks, current_index)` (timer.py lines 86–98). -/
def timelineStatus (i current : Nat) : Status × Urgency :=
  if i < current then (Status.completed, Urgency.low)
  else if i = current then (Status.active, Urgency.critical)
  else (Status.upcoming, Urgency.normal)

/-- `queue_timeline_notifications(tasks, current_index)` (timer.py lines
70–124): shows one persistent (timeout 0) notification per task, in order. -/
def queue_timeline_notifications (tasks : List Task) (current : Nat) : List Event :=
  (List.range tasks.length).map fun i =>
    Event.timelineShow i (timelineStatus i current).1 (timelineStatus i current).2 0

/-- `update_timeline_notification(tasks, completed_index)` (timer.py lines
126–155): returns with no call when the index is out of range, otherwise
shows the slot as completed, low urgency, persistent. -/
def update_timeline_notification (tasks : List Task) (idx : Nat) : List Event :=
  if tasks.length ≤ idx then []
  else [Event.timelineShow idx Status.completed Urgency.low 0]

/-- The `for i, task in enumerate(tasks)` loop of `main` (timer.py lines
339–356): for task `i`, first (when `i > 0`) mark slot `i - 1` completed,
then run the countdown threading `notification_id`, then mark slot `i`
completed.  `skips i` is the skip oracle for task `i`. -/
def scheduleLoop (tasks : List Task) (skips : Nat → Nat → Bool) :
    Nat → List Task → Option Nat → List Event
  | _, [], _ => []
  | i, t :: rest, nid =>
    (if 0 < i then update_timeline_notification tasks (i - 1) else []) ++
      (run_task_timer t (skips i) nid).events ++
      update_timeline_notification tasks i ++
      scheduleLoop tasks skips (i + 1) rest (run_task_timer t (skips i) nid).retId

/-- The notification events of a full, uninterrupted run of `main` on a
non-empty task list (timer.py lines 329–377): the timeline is queued with
`current_index = 0`, every task runs in order with `notification_id`
starting at 0, the last slot is marked completed once more, and the final
"Schedule Finished!" notification is shown critical with a 5000 ms timeout. -/
def runScheduleEvents (tasks : List Task) (skips : Nat → Nat → Bool) : List Event :=
  queue_timeline_notifications tasks 0 ++
    scheduleLoop tasks skips 0 tasks (some 0) ++
    (if tasks.isEmpty then [] else update_timeline_notification tasks (tasks.length - 1)) ++
    [Event.finalShow Urgency.critical 5000]

/-- Environment of one `main` invocation (timer.py lines 289–377):
whether a CLI argument was given, whether `notify2.init` succeeded, whether
the schedule file exists and parses, the parsed task list, and an optional
KeyboardInterrupt raised before starting task `k` of the loop. -/
structure Env where
  hasArg : Bool
  notifyInitOk : Bool
  fileFound : Bool
  jsonValid : Bool
  tasks : List Task
  interruptAt : Option Nat

/-- How the process ends: `sys.exit(code)`, or `main` returning normally
(the interpreter then exits with code 0). -/
inductive MainOutcome
  | exited (code : Nat)
  | returned
  deriving DecidableEq, Repr

/-- The process exit code an outcome produces. -/
def MainOutcome.code : MainOutcome → Nat
  | .exited c => c
  | .returned => 0

/-- `main()` (timer.py lines 289–377): argument check, `notify2.init`,
schedule loading, empty-task check, then the timeline/countdown run;
a KeyboardInterrupt inside the task loop is caught and `sys.exit(0)` runs.
Returns the outcome and the notification events emitted. -/
def mainModel (env : Env) (skips : Nat → Nat → Bool) : MainOutcome × List Event :=
  if ¬ env.hasArg then (MainOutcome.exited 1, [])
  else if ¬ env.notifyInitOk then (MainOutcome.exited 1, [])
  else if ¬ env.fileFound then (MainOutcome.exited 1, [])
  else if ¬ env.jsonValid then (MainOutcome.exited 1, [])
  else if env.tasks.isEmpty then (MainOutcome.returned, [])
  else
    match env.interruptAt with
    | some k =>
      if k < env.tasks.length then
        (MainOutcome.exited 0,
         queue_timeline_notifications env.tasks 0 ++
           scheduleLoop env.tasks skips 0 (env.tasks.take k) (some 0))
      else (MainOutcome.returned, runScheduleEvents env.tasks skips)
    | none => (MainOutcome.returned, runScheduleEvents env.tasks skips)

/-! ### Event classification predicates, used for call counting -/

def isActiveShow : Event → Bool
  | Event.activeShow _ _ => true
  | _ => false

def isActiveUpdate : Event → Bool
  | Event.activeUpdate _ _ => true
  | _ => false

def isActiveClose : Event → Bool
  | Event.activeClose => true
  | _ => false

def isAlarmShow : Event → Bool
  | Event.alarmShow _ _ => true
  | _ => false

def isPlayAlarm : Event → Bool
  | Event.playAlarm => true
  | _ => false

def isAckWait : Event → Bool
  | Event.ackWait => true
  | _ => false

def isFinalShow : Event → Bool
  | Event.finalShow _ _ => true
  | _ => false

def isTimelineShow : Event → Bool
  | Event.timelineShow _ _ _ _ => true
  | _ => false

/-- A timeline show targeting slot `i`, any status. -/
def isTimelineShowAt (i : Nat) : Event → Bool
  | Event.timelineShow j _ _ _ => j = i
  | _ => false

/-- A timeline show rendering slot `i` as completed. -/
def isCompletedShowAt (i : Nat) : Event → Bool
  | Event.timelineShow j Status.completed _ _ => j = i
  | _ => false

/-- A timeline show rendering some slot with status `active`. -/
def isActiveStatusShow : Event → Bool
  | Event.timelineShow _ Status.active _ _ => true
  | _ => false

/-- The timeout `set_timeout` gave the notification behind a show event
(`none` for non-show events). -/
def showTimeout : Event → Option Int
  | Event.activeShow _ t => some t
  | Event.alarmShow _ t => some t
  | Event.timelineShow _ _ _ t => some t
  | Event.finalShow _ t => some t
  | _ => none

/-- A show event whose notification is permitted to auto-expire
(timeout ≠ 0). -/
def isAutoExpireShow (e : Event) : Bool :=
  match showTimeout e with
  | some t => decide (t ≠ 0)
  | none => false

/-- Closed form of the per-tick events of an uninterrupted, never-skipped
countdown from `r` remaining seconds: for each tick the decremented
remainder is split by `divmod(·, 60)` and the active notification is
updated and re-shown. -/
def expectedTickEvents : Nat → List Event
  | 0 => []
  | r + 1 =>
    Event.activeUpdate (r / 60) (r % 60) :: Event.activeShow Urgency.critical 0 ::
      expectedTickEvents r

/-! ### Sample tasks used to instantiate claims on concrete inputs -/

/-- A 1-minute task, the task "A" of the spec's end-to-end scenario. -/
def taskA : Task := ⟨some "A", some "09:00", some 1⟩

/-- A 2-minute task, the task "B" of the spec's end-to-end scenario. -/
def taskB : Task := ⟨some "B", some "10:00", some 2⟩

/-- A task with the invalid duration 0. -/
def taskZ : Task := ⟨some "Z", some "08:00", some 0⟩

/-- Oracle sending no skip signal to any task. -/
def noSkips : Nat → Nat → Bool := fun _ _ => false

/-- The four events emitted after a countdown expires naturally:
alarm notification (critical, 10 s timeout), alarm sound, blocking
acknowledgment read, alarm close. -/
def postExpiredEvents : List Event :=
  [Event.alarmShow Urgency.critical 10000, Event.playAlarm,
   Event.ackWait, Event.alarmClose]

/-! ### Countdown loop lemmas -/

/-- With no skip signal ever pending, the countdown loop from `r` remaining
seconds performs exactly `r` decrementing ticks, emits the closed-form tick
events and ends unskipped at 0 remaining. -/
lemma countdownLoop_noskip (r : Nat) : ∀ iter : Nat,
    countdownLoop (fun _ => false) iter r = ⟨expectedTickEvents r, 0, false, r⟩ := by
  induction r with
  | zero => intro iter; rfl
  | succ n ih => intro iter; simp [countdownLoop, expectedTickEvents, ih]

/-- With a skip signal pending from `select` call `k` on, a loop that starts
at iteration `iter ≤ k` with more than `k - iter` seconds remaining ends
skipped after exactly `k - iter + 1` iterations. -/
lemma countdownLoop_skip_from (k : Nat) : ∀ (r iter : Nat), iter ≤ k → k - iter < r →
    (countdownLoop (fun j => decide (k ≤ j)) iter r).skipped = true ∧
    (countdownLoop (fun j => decide (k ≤ j)) iter r).ticks = k - iter + 1 := by
  intro r
  induction r with
  | zero => intro iter h1 h2; omega
  | succ n ih =>
    intro iter h1 h2
    by_cases hik : k ≤ iter
    · have : iter = k := le_antisymm h1 hik
      subst this
      simp [countdownLoop]
    · have hlt : iter < k := lt_of_not_le hik
      obtain ⟨hs, ht⟩ := ih (iter + 1) (by omega) (by omega)
      refine ⟨?_, ?_⟩
      · simp [countdownLoop, hik, hs]
      · simp [countdownLoop, hik, ht]
        omega

/-- The countdown loop closes the active notification exactly once when it
ends by skip (timer.py line 224) and never otherwise. -/
lemma countdownLoop_close_count (skip : Nat → Bool) : ∀ (r iter : Nat),
    (countdownLoop skip iter r).events.countP isActiveClose
      = if (countdownLoop skip iter r).skipped then 1 else 0 := by
  intro r
  induction r with
  | zero => intro iter; rfl
  | succ n ih =>
    intro iter
    by_cases h : skip iter
    · simp [countdownLoop, h, isActiveClose]
    · simp [countdownLoop, h, List.countP_cons, isActiveClose, ih]

/-- The countdown loop only touches the active notification: any predicate
false on active-channel events counts zero occurrences in its trace. -/
lemma countdownLoop_countP_zero (skip : Nat → Bool) (p : Event → Bool)
    (h1 : ∀ m s, p (Event.activeUpdate m s) = false)
    (h2 : ∀ u tm, p (Event.activeShow u tm) = false)
    (h3 : p Event.activeClose = false) : ∀ (r iter : Nat),
    (countdownLoop skip iter r).events.countP p = 0 := by
  intro r
  induction r with
  | zero => intro iter; rfl
  | succ n ih =>
    intro iter
    by_cases h : skip iter <;>
      simp [countdownLoop, h, List.countP_cons, h1, h2, h3, ih]

/-- An interrupted countdown loop emits no close of its own (the only close
is the one from the `finally` block). -/
lemma countdownLoopIntr_close_count (j : Nat) : ∀ (r iter : Nat),
    (countdownLoopIntr j iter r).countP isActiveClose = 0 := by
  intro r
  induction r with
  | zero => intro iter; rfl
  | succ n ih =>
    intro iter
    by_cases h : iter = j <;>
      simp [countdownLoopIntr, h, List.countP_cons, isActiveClose, ih]

/-- `run_task_timer` emits nothing beyond active-channel, alarm,
alarm-sound and acknowledgment events: any predicate false on all of those
counts zero occurrences in its trace. -/
lemma run_task_timer_countP_zero (t : Task) (skip : Nat → Bool) (nid : Option Nat)
    (p : Event → Bool)
    (h1 : ∀ m s, p (Event.activeUpdate m s) = false)
    (h2 : ∀ u tm, p (Event.activeShow u tm) = false)
    (h3 : p Event.activeClose = false)
    (h4 : ∀ u tm, p (Event.alarmShow u tm) = false)
    (h5 : p Event.playAlarm = false)
    (h6 : p Event.ackWait = false)
    (h7 : p Event.alarmClose = false) :
    (run_task_timer t skip nid).events.countP p = 0 := by
  by_cases hd : t.getDuration ≤ 0
  · simp [run_task_timer, hd]
  · by_cases hs : (countdownLoop skip 1 (t.getDuration.toNat * 60)).skipped <;>
      simp [run_task_timer, hd, hs, List.countP_cons, List.countP_append,
        h1, h2, h3, h4, h5, h6, h7,
        countdownLoop_countP_zero skip p h1 h2 h3]

/-! ### Claims C1, C2, C3, C8 (per-task countdown) -/

/-- C1 counterexample: the claim says `close()` runs exactly once per
countdown whatever the outcome, but on the Skipped path timer.py closes the
active notification both in the skip branch (line 224) and again in the
`finally` block (line 249): skipping task "A" at the first tick yields two
closes, not one. -/
theorem claimC1_counterexample :
    ((run_task_timer taskA (fun j => decide (1 ≤ j)) (some 0)).events.countP
      isActiveClose) = 2 ∧
    (run_task_timer taskA (fun j => decide (1 ≤ j)) (some 0)).state
      = TimerState.Skipped := by
  decide

/-- C1 amended: for every countdown on a task with positive duration, the
`finally`-block close always executes — the active channel is closed exactly
once when the countdown ends in `Expired` or is interrupted mid-tick by a
process-level cancellation, and exactly twice (skip-branch close plus
`finally` close) when it ends in `Skipped`. -/
theorem claimC1_amended (t : Task) (skip : Nat → Bool) (nid : Option Nat)
    (h : 0 < t.getDuration) :
    ((run_task_timer t skip nid).state = TimerState.Expired →
      (run_task_timer t skip nid).events.countP isActiveClose = 1) ∧
    ((run_task_timer t skip nid).state = TimerState.Skipped →
      (run_task_timer t skip nid).events.countP isActiveClose = 2) ∧
    (∀ j : Nat, (run_task_timer_interrupted t j).countP isActiveClose = 1) := by
  have hd : ¬ t.getDuration ≤ 0 := not_le.mpr h
  have hcl := countdownLoop_close_count skip (t.getDuration.toNat * 60) 1
  refine ⟨?_, ?_, ?_⟩
  · intro hst
    by_cases hs : (countdownLoop skip 1 (t.getDuration.toNat * 60)).skipped
    · simp [run_task_timer, hd, hs] at hst
    · simp [run_task_timer, hd, hs, List.countP_cons, List.countP_append,
        isActiveClose, hcl]
  · intro hst
    by_cases hs : (countdownLoop skip 1 (t.getDuration.toNat * 60)).skipped
    · simp [run_task_timer, hd, hs, List.countP_cons, List.countP_append,
        isActiveClose, hcl]
    · simp [run_task_timer, hd, hs] at hst
  · intro j
    simp [run_task_timer_interrupted, hd, List.countP_cons, List.countP_append,
      isActiveClose, countdownLoopIntr_close_count j (t.getDuration.toNat * 60) 1]

/-- C1 amended, instantiated: the full uninterrupted run of the 1-minute
task "A" closes its active notification exactly once. -/
theorem claimC1_amended_witness :
    (run_task_timer taskA (fun _ => false) none).events.countP isActiveClose = 1 :=
  (claimC1_amended taskA (fun _ => false) none (by decide)).1 (by decide)

/-- C2 confirmed: a skip signal pending from `select` call `k` on
(`0 < k < d*60`) ends the countdown in `Skipped` after exactly `k` ticks,
with no alarm notification, no `play_alarm` call and no blocking
acknowledgment read. -/
theorem claimC2 (t : Task) (nid : Option Nat) (k : Nat)
    (hd : 0 < t.getDuration) (hk0 : 0 < k) (hk : k < t.getDuration.toNat * 60) :
    (run_task_timer t (fun j => decide (k ≤ j)) nid).state = TimerState.Skipped ∧
    (run_task_timer t (fun j => decide (k ≤ j)) nid).ticks = k ∧
    (run_task_timer t (fun j => decide (k ≤ j)) nid).events.countP isAlarmShow = 0 ∧
    (run_task_timer t (fun j => decide (k ≤ j)) nid).events.countP isPlayAlarm = 0 ∧
    (run_task_timer t (fun j => decide (k ≤ j)) nid).events.countP isAckWait = 0 := by
  have hdle : ¬ t.getDuration ≤ 0 := not_le.mpr hd
  obtain ⟨hs, ht⟩ := countdownLoop_skip_from k (t.getDuration.toNat * 60) 1
    (by omega) (by omega)
  have hz1 := countdownLoop_countP_zero (fun j => decide (k ≤ j)) isAlarmShow
    (by intro m s; rfl) (by intro u tm; rfl) rfl (t.getDuration.toNat * 60) 1
  have hz2 := countdownLoop_countP_zero (fun j => decide (k ≤ j)) isPlayAlarm
    (by intro m s; rfl) (by intro u tm; rfl) rfl (t.getDuration.toNat * 60) 1
  have hz3 := countdownLoop_countP_zero (fun j => decide (k ≤ j)) isAckWait
    (by intro m s; rfl) (by intro u tm; rfl) rfl (t.getDuration.toNat * 60) 1
  refine ⟨?_, ?_, ?_, ?_, ?_⟩
  · simp [run_task_timer, hdle, hs]
  · simp [run_task_timer, hdle, ht]; omega
  all_goals
    simp [run_task_timer, hdle, hs, List.countP_cons, List.countP_append,
      isAlarmShow, isPlayAlarm, isAckWait, hz1, hz2, hz3]

/-- C2, instantiated: skipping the 1-minute task "A" at tick 10. -/
theorem claimC2_witness :
    (run_task_timer taskA (fun j => decide (10 ≤ j)) none).state
      = TimerState.Skipped :=
  (claimC2 taskA none 10 (by decide) (by decide) (by decide)).1

/-- C3 confirmed: with no skip signal, a countdown on duration `d > 0`
starts from `remaining_seconds = d*60`, performs exactly `d*60` decrementing
ticks — each updating the notification with `divmod(remaining_seconds, 60)` —
ends `Expired` with 0 seconds remaining, and is followed by the alarm
notification, the alarm sound and the blocking acknowledgment read. -/
theorem claimC3 (t : Task) (nid : Option Nat) (h : 0 < t.getDuration) :
    (run_task_timer t (fun _ => false) nid).state = TimerState.Expired ∧
    (run_task_timer t (fun _ => false) nid).ticks = t.getDuration.toNat * 60 ∧
    (run_task_timer t (fun _ => false) nid).finalRemaining = 0 ∧
    (run_task_timer t (fun _ => false) nid).events
      = Event.activeShow Urgency.critical 0 ::
          (expectedTickEvents (t.getDuration.toNat * 60) ++
            [Event.activeClose] ++ postExpiredEvents) ∧
    (run_task_timer t (fun _ => false) nid).events.countP isActiveUpdate
      = t.getDuration.toNat * 60 := by
  have hdle : ¬ t.getDuration ≤ 0 := not_le.mpr h
  have hloop := countdownLoop_noskip (t.getDuration.toNat * 60) 1
  have hcount : ∀ r : Nat, (expectedTickEvents r).countP isActiveUpdate = r := by
    intro r
    induction r with
    | zero => rfl
    | succ n ih => simp [expectedTickEvents, List.countP_cons, isActiveUpdate, ih]
  refine ⟨?_, ?_, ?_, ?_, ?_⟩ <;>
    simp [run_task_timer, hdle, hloop, postExpiredEvents, List.countP_cons,
      List.countP_append, isActiveUpdate, hcount]

/-- C3, instantiated: the 1-minute task "A" expires after exactly 60 ticks. -/
theorem claimC3_witness :
    (run_task_timer taskA (fun _ => false) (some 0)).state = TimerState.Expired ∧
    (run_task_timer taskA (fun _ => false) (some 0)).ticks = 60 :=
  ⟨(claimC3 taskA (some 0) (by decide)).1, (claimC3 taskA (some 0) (by decide)).2.1⟩

/-- C8 confirmed: a task with `duration_minutes ≤ 0` makes `run_task_timer`
return `None` immediately — zero notification calls, zero ticks, a terminal
skipped-equivalent state — and the schedule loop still performs its timeline
updates and proceeds to the remaining tasks. -/
theorem claimC8 (t : Task) (h : t.getDuration ≤ 0) :
    (∀ (skip : Nat → Bool) (nid : Option Nat),
      run_task_timer t skip nid = ⟨[], none, TimerState.Skipped, 0, 0⟩) ∧
    (∀ (tasks : List Task) (skips : Nat → Nat → Bool) (i : Nat)
        (rest : List Task) (nid : Option Nat),
      scheduleLoop tasks skips i (t :: rest) nid
        = (if 0 < i then update_timeline_notification tasks (i - 1) else []) ++
            update_timeline_notification tasks i ++
            scheduleLoop tasks skips (i + 1) rest none) := by
  constructor
  · intro skip nid
    simp [run_task_timer, h]
  · intro tasks skips i rest nid
    simp [scheduleLoop, run_task_timer, h]

/-- C8, instantiated: the zero-duration task "Z" yields no event and the
return value `None`. -/
theorem claimC8_witness :
    run_task_timer taskZ (fun _ => false) (some 3)
      = ⟨[], none, TimerState.Skipped, 0, 0⟩ :=
  (claimC8 taskZ (by decide)).1 (fun _ => false) (some 3)

/-! ### Timeline counting lemmas -/

/-- Counting over the per-slot notifications produced by mapping over
`range n`: zero matches when the predicate rejects every produced event. -/
lemma countP_map_range_zero (f : Nat → Event) (p : Event → Bool) :
    ∀ n : Nat, (∀ j, j < n → p (f j) = false) →
      ((List.range n).map f).countP p = 0 := by
  intro n
  induction n with
  | zero => intro _; rfl
  | succ m ih =>
    intro h
    rw [List.range_succ, List.map_append, List.countP_append]
    simp [ih (fun j hj => h j (by omega)), h m (by omega)]

/-- Counting over the per-slot notifications produced by mapping over
`range n`: exactly one match when the predicate accepts the event of slot
`i < n` and rejects every other slot's. -/
lemma countP_map_range_one (f : Nat → Event) (p : Event → Bool) (i : Nat)
    (h1 : p (f i) = true) (h2 : ∀ j, j ≠ i → p (f j) = false) :
    ∀ n : Nat, i < n → ((List.range n).map f).countP p = 1 := by
  intro n
  induction n with
  | zero => intro h; omega
  | succ m ih =>
    intro hin
    rw [List.range_succ, List.map_append, List.countP_append]
    by_cases him : i = m
    · subst him
      rw [countP_map_range_zero f p i (fun j hj => h2 j (by omega))]
      simp [h1]
    · rw [ih (by omega)]
      simp [h2 m (fun hmi => him hmi.symm)]

/-- Slot `i < n` is shown exactly once by timeline initialization. -/
lemma queue_countP_slot (tasks : List Task) (c i : Nat) (hi : i < tasks.length) :
    (queue_timeline_notifications tasks c).countP (isTimelineShowAt i) = 1 := by
  refine countP_map_range_one _ _ i ?_ ?_ tasks.length hi
  · simp [isTimelineShowAt]
  · intro j hj
    simp [isTimelineShowAt, hj]

/-- Timeline initialization with `current_index = 0` never renders a slot as
completed (slot 0 is active, the others upcoming). -/
lemma queue_countP_completed_zero (tasks : List Task) (i : Nat) :
    (queue_timeline_notifications tasks 0).countP (isCompletedShowAt i) = 0 := by
  refine countP_map_range_zero _ _ tasks.length ?_
  intro j _
  match j with
  | 0 => rfl
  | j + 1 => rfl

/-- Completed-mark count of the schedule loop run from position `p` over the
remaining tasks `rest`: slot `i` is marked once by iteration `i + 1`'s
pre-mark (when that iteration exists) and once by iteration `i`'s post-mark
(when it exists). -/
lemma scheduleLoop_completed_count (tasks : List Task) (skips : Nat → Nat → Bool)
    (i : Nat) : ∀ (rest : List Task) (p : Nat) (nid : Option Nat),
    p + rest.length ≤ tasks.length →
    (scheduleLoop tasks skips p rest nid).countP (isCompletedShowAt i)
      = (if p ≤ i + 1 ∧ i + 1 < p + rest.length then 1 else 0) +
        (if p ≤ i ∧ i < p + rest.length then 1 else 0) := by
  intro rest
  induction rest with
  | nil =>
    intro p nid _
    simp only [scheduleLoop, List.countP_nil, List.length_nil, Nat.add_zero]
    split_ifs <;> omega
  | cons t rest ih =>
    intro p nid h
    have hlen : p + (rest.length + 1) ≤ tasks.length := by
      simpa using h
    have hrun := run_task_timer_countP_zero t (skips p) nid (isCompletedShowAt i)
      (by intro m s; rfl) (by intro u tm; rfl) rfl (by intro u tm; rfl) rfl rfl rfl
    have hrec := ih (p + 1) (run_task_timer t (skips p) nid).retId (by omega)
    have hpl : ¬ tasks.length ≤ p := by omega
    by_cases hp : 0 < p
    · have hp1 : ¬ tasks.length ≤ p - 1 := by omega
      simp [scheduleLoop, update_timeline_notification, hp, hp1, hpl,
        List.countP_append, List.countP_cons, hrun, hrec, isCompletedShowAt]
      split_ifs <;> omega
    · simp [scheduleLoop, update_timeline_notification, hp, hpl,
        List.countP_append, List.countP_cons, hrun, hrec, isCompletedShowAt]
      split_ifs <;> omega

/-! ### Claims C4 and C6 (timeline invariants) -/

set_option maxRecDepth 40000 in
/-- C4 counterexample: the claim says slot `i` receives exactly one
completed transition over the run, but on the two-task schedule with no
skips slot 0 is re-shown completed twice — once after task 0 finishes
(timer.py line 356) and once again at the start of task 1 (line 351). -/
theorem claimC4_counterexample :
    (runScheduleEvents [taskA, taskB] noSkips).countP (isCompletedShowAt 0) = 2 := by
  decide

/-- C4 amended: over a full run, each timeline slot `i` is shown exactly
once by initialization (never as completed there) and is re-shown as
completed by exactly two `update_timeline_notification` calls: one right
after its task finishes, and a redundant one at the start of the next task
(or, for the last slot, after the loop ends). -/
theorem claimC4_amended (tasks : List Task) (skips : Nat → Nat → Bool) (i : Nat)
    (hi : i < tasks.length) :
    (runScheduleEvents tasks skips).countP (isCompletedShowAt i) = 2 ∧
    (queue_timeline_notifications tasks 0).countP (isTimelineShowAt i) = 1 ∧
    (queue_timeline_notifications tasks 0).countP (isCompletedShowAt i) = 0 := by
  have hlen : 0 < tasks.length := by omega
  have hne : tasks.isEmpty = false := by
    cases tasks with
    | nil => simp at hlen
    | cons a l => rfl
  have hloop := scheduleLoop_completed_count tasks skips i tasks 0 (some 0)
    (by omega)
  have hlast : ¬ tasks.length ≤ tasks.length - 1 := by omega
  refine ⟨?_, queue_countP_slot tasks 0 i hi, queue_countP_completed_zero tasks i⟩
  simp only [runScheduleEvents, List.countP_append, hne, Bool.false_eq_true,
    if_false, update_timeline_notification, hlast, queue_countP_completed_zero,
    hloop]
  simp only [List.countP_cons, List.countP_nil, isCompletedShowAt]
  simp only [Nat.zero_add]
  split_ifs <;> simp_all <;> omega

/-- C4 amended, instantiated at slot 0 of the two-task schedule. -/
theorem claimC4_amended_witness :
    (runScheduleEvents [taskA, taskB] noSkips).countP (isCompletedShowAt 0) = 2 ∧
    (queue_timeline_notifications [taskA, taskB] 0).countP (isTimelineShowAt 0) = 1 :=
  ⟨(claimC4_amended [taskA, taskB] noSkips 0 (by decide)).1,
   (claimC4_amended [taskA, taskB] noSkips 0 (by decide)).2.1⟩

/-- C6 counterexample: the claim says timeline initialization shows every
slot as upcoming with normal urgency and never renders `active` on a
timeline channel, but `queue_timeline_notifications(tasks, 0)` shows slot 0
as "Active Now" with critical urgency (timer.py lines 91–94). -/
theorem claimC6_counterexample :
    queue_timeline_notifications [taskA, taskB] 0
      = [Event.timelineShow 0 Status.active Urgency.critical 0,
         Event.timelineShow 1 Status.upcoming Urgency.normal 0] ∧
    (queue_timeline_notifications [taskA, taskB] 0).countP isActiveStatusShow = 1 := by
  decide

/-- C6 amended: timeline initialization (run with `current_index = 0`)
shows slot 0 with status active and critical urgency and every other slot
with status upcoming and normal urgency; the countdown additionally renders
the active task on its own channel. -/
theorem claimC6_amended (tasks : List Task) (i : Nat) (hi : i < tasks.length) :
    (queue_timeline_notifications tasks 0)[i]?
      = some (Event.timelineShow i
          (if i = 0 then Status.active else Status.upcoming)
          (if i = 0 then Urgency.critical else Urgency.normal) 0) := by
  simp [queue_timeline_notifications, List.getElem?_map, List.getElem?_range, hi,
    timelineStatus]
  match i with
  | 0 => simp
  | j + 1 => simp

/-- C6 amended, instantiated: slot 1 of the two-task schedule is shown
upcoming with normal urgency. -/
theorem claimC6_amended_witness :
    (queue_timeline_notifications [taskA, taskB] 0)[1]?
      = some (Event.timelineShow 1 Status.upcoming Urgency.normal 0) := by
  simpa using claimC6_amended [taskA, taskB] 1 (by decide)

/-! ### Notification timeout discipline -/

/-- The timeout/urgency discipline each show event of timer.py obeys:
active-channel and timeline notifications are persistent (`set_timeout(0)`),
alarm notifications are critical with a 10000 ms timeout, the final
notification is critical with a 5000 ms timeout. -/
def wellTimed : Event → Bool
  | Event.activeShow _ tm => tm == 0
  | Event.timelineShow _ _ _ tm => tm == 0
  | Event.alarmShow u tm => u == Urgency.critical && tm == 10000
  | Event.finalShow u tm => u == Urgency.critical && tm == 5000
  | _ => true

/-- Every event of the countdown loop obeys the timeout discipline. -/
lemma countdownLoop_wellTimed (skip : Nat → Bool) : ∀ (r iter : Nat),
    ((countdownLoop skip iter r).events).all wellTimed = true := by
  intro r
  induction r with
  | zero => intro iter; rfl
  | succ n ih =>
    intro iter
    by_cases h : skip iter <;> simp [countdownLoop, h, wellTimed, ih]

/-- Every event of one `run_task_timer` invocation obeys the timeout
discipline. -/
lemma run_task_timer_wellTimed (t : Task) (skip : Nat → Bool) (nid : Option Nat) :
    ((run_task_timer t skip nid).events).all wellTimed = true := by
  by_cases hd : t.getDuration ≤ 0
  · simp [run_task_timer, hd]
  · by_cases hs : (countdownLoop skip 1 (t.getDuration.toNat * 60)).skipped <;>
      simp [run_task_timer, hd, hs, List.all_append, wellTimed,
        countdownLoop_wellTimed skip]

/-- Every timeline-initialization event obeys the timeout discipline. -/
lemma queue_wellTimed (tasks : List Task) (c : Nat) :
    (queue_timeline_notifications tasks c).all wellTimed = true := by
  rw [List.all_eq_true]
  intro e he
  simp only [queue_timeline_notifications, List.mem_map] at he
  obtain ⟨j, _, rfl⟩ := he
  rfl

/-- Every timeline completed-mark event obeys the timeout discipline. -/
lemma update_wellTimed (tasks : List Task) (idx : Nat) :
    (update_timeline_notification tasks idx).all wellTimed = true := by
  by_cases h : tasks.length ≤ idx <;> simp [update_timeline_notification, h, wellTimed]

/-- Every event of the schedule loop obeys the timeout discipline. -/
lemma scheduleLoop_wellTimed (tasks : List Task) (skips : Nat → Nat → Bool) :
    ∀ (rest : List Task) (p : Nat) (nid : Option Nat),
    (scheduleLoop tasks skips p rest nid).all wellTimed = true := by
  intro rest
  induction rest with
  | nil => intro p nid; rfl
  | cons t rest ih =>
    intro p nid
    by_cases hp : 0 < p <;>
      simp [scheduleLoop, hp, List.all_append, run_task_timer_wellTimed,
        update_wellTimed, ih]

/-- Every event of a full schedule run obeys the timeout discipline. -/
lemma runSchedule_wellTimed (tasks : List Task) (skips : Nat → Nat → Bool) :
    (runScheduleEvents tasks skips).all wellTimed = true := by
  by_cases he : tasks.isEmpty <;>
    simp [runScheduleEvents, he, List.all_append, queue_wellTimed,
      scheduleLoop_wellTimed, update_wellTimed, wellTimed]

/-- The schedule loop never shows the final notification. -/
lemma scheduleLoop_finalShow_zero (tasks : List Task) (skips : Nat → Nat → Bool) :
    ∀ (rest : List Task) (p : Nat) (nid : Option Nat),
    (scheduleLoop tasks skips p rest nid).countP isFinalShow = 0 := by
  intro rest
  induction rest with
  | nil => intro p nid; rfl
  | cons t rest ih =>
    intro p nid
    have hrun := run_task_timer_countP_zero t (skips p) nid isFinalShow
      (by intro m s; rfl) (by intro u tm; rfl) rfl (by intro u tm; rfl) rfl rfl rfl
    have hupd : ∀ idx, (update_timeline_notification tasks idx).countP isFinalShow = 0 := by
      intro idx
      by_cases h : tasks.length ≤ idx <;>
        simp [update_timeline_notification, h, isFinalShow]
    by_cases hp : 0 < p <;>
      simp [scheduleLoop, hp, List.countP_append, hrun, hupd, ih]

/-! ### Claims C5, C7 (end-to-end trace and final notification) -/

set_option maxRecDepth 40000 in
/-- C5 counterexample: on the spec's own scenario the countdown of the
1-minute task "A" performs 60 update calls (one per decrementing tick, the
last writing "00:00"), not 59, and slot 0 receives two completed marks, not
one. -/
theorem claimC5_counterexample :
    (run_task_timer taskA (noSkips 0) (some 0)).events.countP isActiveUpdate = 60 ∧
    (runScheduleEvents [taskA, taskB] noSkips).countP (isCompletedShowAt 1) = 2 := by
  decide

set_option maxRecDepth 40000 in
/-- C5 amended: on the schedule `[A (1 min), B (2 min)]` with no skip
signals the observed sequence is: 2 timeline shows (slot 0 active, slot 1
upcoming), countdown A (60 ticks, 60 update calls, 1 alarm, 1
acknowledgment wait), markCompleted(0) twice, countdown B (120 ticks, 120
update calls, 1 alarm, 1 acknowledgment wait), markCompleted(1) twice, and
the final notification shown exactly once. -/
theorem claimC5_amended :
    runScheduleEvents [taskA, taskB] noSkips
      = [Event.timelineShow 0 Status.active Urgency.critical 0,
         Event.timelineShow 1 Status.upcoming Urgency.normal 0] ++
        (Event.activeShow Urgency.critical 0 ::
          (expectedTickEvents 60 ++ [Event.activeClose] ++ postExpiredEvents)) ++
        [Event.timelineShow 0 Status.completed Urgency.low 0,
         Event.timelineShow 0 Status.completed Urgency.low 0] ++
        (Event.activeShow Urgency.critical 0 ::
          (expectedTickEvents 120 ++ [Event.activeClose] ++ postExpiredEvents)) ++
        [Event.timelineShow 1 Status.completed Urgency.low 0,
         Event.timelineShow 1 Status.completed Urgency.low 0,
         Event.finalShow Urgency.critical 5000] ∧
    (run_task_timer taskA (noSkips 0) (some 0)).ticks = 60 ∧
    (run_task_timer taskA (noSkips 0) (some 0)).events.countP isActiveUpdate = 60 ∧
    (run_task_timer taskB (noSkips 1) (some 1)).ticks = 120 ∧
    (run_task_timer taskB (noSkips 1) (some 1)).events.countP isActiveUpdate = 120 ∧
    (runScheduleEvents [taskA, taskB] noSkips).countP isAlarmShow = 2 ∧
    (runScheduleEvents [taskA, taskB] noSkips).countP isPlayAlarm = 2 ∧
    (runScheduleEvents [taskA, taskB] noSkips).countP isAckWait = 2 ∧
    (runScheduleEvents [taskA, taskB] noSkips).countP isFinalShow = 1 := by
  decide

set_option maxRecDepth 40000 in
/-- C7 counterexample: the claim says the final notification is the only
one whose timeout permits auto-expiry, but each expired task's alarm
notification is created with `set_timeout(10000)` (timer.py line 266): even
a one-task run contains two auto-expiring shows. -/
theorem claimC7_counterexample :
    (runScheduleEvents [taskA] noSkips).countP isAutoExpireShow = 2 ∧
    Event.alarmShow Urgency.critical 10000 ∈ runScheduleEvents [taskA] noSkips := by
  decide

/-- C7 amended: in every full run, the final schedule-finished notification
is shown exactly once, critical, with a 5000 ms auto-expiry; every timeline
and active-countdown show is persistent (timeout 0); and every alarm
notification also auto-expires, with a 10000 ms timeout. -/
theorem claimC7_amended (tasks : List Task) (skips : Nat → Nat → Bool) :
    (runScheduleEvents tasks skips).countP isFinalShow = 1 ∧
    (∀ e ∈ runScheduleEvents tasks skips, isFinalShow e = true →
      e = Event.finalShow Urgency.critical 5000) ∧
    (∀ e ∈ runScheduleEvents tasks skips,
      isTimelineShow e = true ∨ isActiveShow e = true → showTimeout e = some 0) ∧
    (∀ e ∈ runScheduleEvents tasks skips, isAlarmShow e = true →
      showTimeout e = some 10000) := by
  have hwt := runSchedule_wellTimed tasks skips
  rw [List.all_eq_true] at hwt
  refine ⟨?_, ?_, ?_, ?_⟩
  · have hq : (queue_timeline_notifications tasks 0).countP isFinalShow = 0 := by
      refine countP_map_range_zero _ _ tasks.length ?_
      intro j _; rfl
    have hupd : ∀ idx, (update_timeline_notification tasks idx).countP isFinalShow = 0 := by
      intro idx
      by_cases h : tasks.length ≤ idx <;>
        simp [update_timeline_notification, h, isFinalShow]
    by_cases he : tasks.isEmpty <;>
      simp [runScheduleEvents, he, List.countP_append, hq, hupd,
        scheduleLoop_finalShow_zero, isFinalShow]
  · intro e he hf
    have := hwt e he
    cases e <;> simp_all [wellTimed, isFinalShow]
  · intro e he hf
    have := hwt e he
    cases e <;> simp_all [wellTimed, isTimelineShow, isActiveShow, showTimeout]
  · intro e he hf
    have := hwt e he
    cases e <;> simp_all [wellTimed, isAlarmShow, showTimeout]

set_option maxRecDepth 40000 in
/-- C7 amended, instantiated on the one-task schedule: one final show, and
the initial timeline show is persistent. -/
theorem claimC7_amended_witness :
    (runScheduleEvents [taskA] noSkips).countP isFinalShow = 1 ∧
    showTimeout (Event.timelineShow 0 Status.active Urgency.critical 0) = some 0 :=
  ⟨(claimC7_amended [taskA] noSkips).1,
   (claimC7_amended [taskA] noSkips).2.2.1 _ (by decide) (by decide)⟩

/-! ### Claims C9, C10 (process outcomes) -/

/-- C9 confirmed: the process exits 1 on a missing CLI argument, a failed
notification-subsystem initialization, a missing schedule file (with no
notification call issued) or malformed JSON; it ends with exit code 0 on a
KeyboardInterrupt inside the task loop and on normal completion. -/
theorem claimC9 (env : Env) (skips : Nat → Nat → Bool) :
    (env.hasArg = false → mainModel env skips = (MainOutcome.exited 1, [])) ∧
    (env.notifyInitOk = false → mainModel env skips = (MainOutcome.exited 1, [])) ∧
    (env.fileFound = false → mainModel env skips = (MainOutcome.exited 1, [])) ∧
    (env.jsonValid = false → mainModel env skips = (MainOutcome.exited 1, [])) ∧
    (∀ k : Nat, env.hasArg = true → env.notifyInitOk = true → env.fileFound = true →
      env.jsonValid = true → env.interruptAt = some k → k < env.tasks.length →
      (mainModel env skips).1.code = 0) ∧
    (env.hasArg = true → env.notifyInitOk = true → env.fileFound = true →
      env.jsonValid = true → env.interruptAt = none →
      (mainModel env skips).1.code = 0) := by
  refine ⟨?_, ?_, ?_, ?_, ?_, ?_⟩
  · intro h
    simp [mainModel, h]
  · intro h
    by_cases h1 : env.hasArg <;> simp [mainModel, h, h1]
  · intro h
    by_cases h1 : env.hasArg <;> by_cases h2 : env.notifyInitOk <;>
      simp [mainModel, h, h1, h2]
  · intro h
    by_cases h1 : env.hasArg <;> by_cases h2 : env.notifyInitOk <;>
      by_cases h3 : env.fileFound <;> simp [mainModel, h, h1, h2, h3]
  · intro k h1 h2 h3 h4 hk hkl
    by_cases he : env.tasks.isEmpty <;>
      simp [mainModel, h1, h2, h3, h4, he, hk, hkl, MainOutcome.code]
  · intro h1 h2 h3 h4 hk
    by_cases he : env.tasks.isEmpty <;>
      simp [mainModel, h1, h2, h3, h4, he, hk, MainOutcome.code]

/-- C9, instantiated: with the schedule file absent the process exits with
code 1 having issued no notification call. -/
theorem claimC9_witness :
    mainModel ⟨true, true, false, true, [taskA], none⟩ noSkips
      = (MainOutcome.exited 1, []) :=
  (claimC9 ⟨true, true, false, true, [taskA], none⟩ noSkips).2.2.1 rfl

/-- C10 confirmed: when startup succeeds but the parsed task list is empty,
`main` prints a message and returns normally — exit code 0 and no timeline
or countdown notification shown. -/
theorem claimC10 (env : Env) (skips : Nat → Nat → Bool) (h1 : env.hasArg = true)
    (h2 : env.notifyInitOk = true) (h3 : env.fileFound = true)
    (h4 : env.jsonValid = true) (h5 : env.tasks = []) :
    mainModel env skips = (MainOutcome.returned, []) ∧
    MainOutcome.returned.code = 0 := by
  constructor
  · simp [mainModel, h1, h2, h3, h4, h5]
  · rfl

/-- C10, instantiated on an empty schedule. -/
theorem claimC10_witness :
    mainModel ⟨true, true, true, true, [], none⟩ noSkips
      = (MainOutcome.returned, []) :=
  (claimC10 ⟨true, true, true, true, [], none⟩ noSkips rfl rfl rfl rfl rfl).1

end TaskTimer
